import Mathlib

/-!
Verification of the image load orchestration layer
(`src/cornerstone-core/src/imageLoader.ts`).

The module keeps a process-wide scheme registry (`imageLoaders`) plus one
optional fallback (`unknownImageLoader`), and resolves an identifier in three
steps: image cache hit, loaded-volume slice extraction, scheme dispatch.
Promises are modelled by their eventual settled outcome; the events the
dispatch wrapper would broadcast on settlement, the loader invocations and the
cache stores are collected as explicit traces in the result.
-/

namespace ImageLoaderModel

/-- Eventual settled outcome of a LoadObject promise. Images and errors are
abstracted as natural numbers. -/
inductive Outcome where
  | fulfilled (image : Nat)
  | rejected (error : Nat)
deriving DecidableEq, Repr

/-- `{ promise, ... }` handle returned by a loader; `tag` models object
identity so that "the exact same LoadObject" is expressible. -/
structure ImageLoadObject where
  tag : Nat
  promise : Outcome
deriving DecidableEq, Repr

/-- An image loader function: receives the imageId and the options argument
(`none` models a JavaScript call where the options argument is omitted,
i.e. `undefined`). `id` identifies the loader in invocation traces. -/
structure Loader where
  id : Nat
  run : String → Option Nat → ImageLoadObject

/-- The module-level mutable state of imageLoader.ts: the `imageLoaders`
table keyed by scheme and the `unknownImageLoader` slot. -/
structure Registry where
  imageLoaders : String → Option Loader
  unknownImageLoader : Option Loader

/-- A cached volume: its `loadStatus.loaded` gate and its
`convertToCornerstoneImage(imageId, imageIdIndex)` capability. -/
structure Volume where
  loaded : Bool
  convertToCornerstoneImage : String → Nat → ImageLoadObject

/-- `{ volume, imageIdIndex }` as returned by
`cache.getVolumeContainingImageId`. -/
structure CachedVolumeInfo where
  volume : Volume
  imageIdIndex : Nat

/-- Modelled from the spec: the caching façade (cache/cache.ts is not among
the shown sources). It exposes `getLoadObject`, `getVolumeContaining` and
`putLoadObject`; a put stores the LoadObject under the identifier so a later
get returns it. -/
structure Cache where
  imageLoadObjects : String → Option ImageLoadObject
  volumeFor : String → Option CachedVolumeInfo

/-- `cache.getImageLoadObject(imageId)`. -/
def Cache.getImageLoadObject (c : Cache) (imageId : String) :
    Option ImageLoadObject :=
  c.imageLoadObjects imageId

/-- `cache.getVolumeContainingImageId(imageId)`. -/
def Cache.getVolumeContainingImageId (c : Cache) (imageId : String) :
    Option CachedVolumeInfo :=
  c.volumeFor imageId

/-- Modelled from the spec: `cache.putImageLoadObject(imageId, obj)` stores
`obj` under `imageId`, leaving volume lookups unchanged. -/
def Cache.putImageLoadObject (c : Cache) (imageId : String)
    (obj : ImageLoadObject) : Cache :=
  ⟨fun s => if s = imageId then some obj else c.imageLoadObjects s,
   c.volumeFor⟩

/-- Lifecycle events broadcast on the event target. -/
inductive Event where
  | imageLoaded (image : Nat)
  | imageLoadFailed (imageId : String) (error : Nat)
deriving DecidableEq, Repr

/-- One loader invocation: which loader, with which imageId, and with which
options argument (`none` = the argument was not passed / undefined). -/
structure LoaderCall where
  loaderId : Nat
  imageId : String
  options : Option Nat
deriving DecidableEq, Repr

/-- Synchronous throws of the module: the undefined-imageId programmer error
(tagged with the throwing function's name) and the no-loader error. -/
inductive LoadError where
  | undefinedImageId (fn : String)
  | noLoader
deriving DecidableEq, Repr

/-- `indexOf(':')` on the character list: index of the first colon, `none`
when there is none (JavaScript returns -1 there). -/
def firstColonIdx : List Char → Option Nat
  | [] => none
  | ch :: rest =>
      if ch = ':' then some 0 else (firstColonIdx rest).map (· + 1)

/-- `imageId.substring(0, imageId.indexOf(':'))`: everything before the first
colon; `indexOf` returns -1 when there is no colon and `substring(0, -1)` is
the empty string. -/
def parseScheme (imageId : String) : String :=
  match firstColonIdx imageId.toList with
  | some colonIndex => String.mk (imageId.toList.take colonIndex)
  | none => ""

/-- The event the `.then` handler pair broadcasts when the promise settles:
`IMAGE_LOADED { image }` on fulfillment, `IMAGE_LOAD_FAILED { imageId, error }`
on rejection. -/
def eventForOutcome (imageId : String) (o : Outcome) : Event :=
  match o with
  | .fulfilled image => .imageLoaded image
  | .rejected error => .imageLoadFailed imageId error

/-- Result of `loadImageFromImageLoader`: the returned LoadObject, the events
that will be broadcast when its promise settles, and the loader invocations
made. -/
structure DispatchResult where
  loadObject : ImageLoadObject
  events : List Event
  calls : List LoaderCall

/-- `loadImageFromImageLoader(imageId, options)`: look up the loader for the
parsed scheme; if absent, call `unknownImageLoader(imageId)` (note: a single
argument) when installed, else throw; otherwise call
`loader(imageId, options)` and attach the event-broadcast handler pair to its
promise. -/
def loadImageFromImageLoader (reg : Registry) (imageId : String)
    (options : Nat) : Except LoadError DispatchResult :=
  match reg.imageLoaders (parseScheme imageId) with
  | none =>
      match reg.unknownImageLoader with
      | some u =>
          .ok ⟨u.run imageId none, [], [⟨u.id, imageId, none⟩]⟩
      | none => .error .noLoader
  | some loader =>
      let imageLoadObject := loader.run imageId (some options)
      .ok ⟨imageLoadObject,
           [eventForOutcome imageId imageLoadObject.promise],
           [⟨loader.id, imageId, some options⟩]⟩

/-- The truthiness test `cachedVolumeInfo && cachedVolumeInfo.volume.loadStatus.loaded`:
the volume info when present with `loaded = true`, otherwise `none`. -/
def loadedVolumeHit (c : Cache) (imageId : String) : Option CachedVolumeInfo :=
  match c.getVolumeContainingImageId imageId with
  | some info => if info.volume.loaded then some info else none
  | none => none

/-- Result of `loadImage` / `loadAndCacheImage`: the returned promise, the
event/invocation traces, the `putImageLoadObject` calls made, and the cache
state after the call. -/
structure LoadResult where
  promise : Outcome
  events : List Event
  calls : List LoaderCall
  puts : List (String × ImageLoadObject)
  cache : Cache

/-- `loadImage(imageId, options)`: throws on undefined imageId, then
(1) returns the cached LoadObject's promise, else (2) converts the slice of a
loaded containing volume, else (3) dispatches through the registry. Nothing
is stored in the cache. -/
def loadImage (reg : Registry) (c : Cache) :
    Option String → Nat → Except LoadError LoadResult
  | none, _ => .error (.undefinedImageId "loadImage")
  | some imageId, options =>
    match c.getImageLoadObject imageId with
    | some imageLoadObject => .ok ⟨imageLoadObject.promise, [], [], [], c⟩
    | none =>
      match loadedVolumeHit c imageId with
      | some info =>
          let imageLoadObject :=
            info.volume.convertToCornerstoneImage imageId info.imageIdIndex
          .ok ⟨imageLoadObject.promise, [], [], [], c⟩
      | none =>
          (loadImageFromImageLoader reg imageId options).map
            (fun d => ⟨d.loadObject.promise, d.events, d.calls, [], c⟩)

/-- `loadAndCacheImage(imageId, options)`: same resolution order as
`loadImage`, but on the volume-slice and dispatch paths the LoadObject is
stored via `cache.putImageLoadObject(imageId, imageLoadObject)` before the
promise is returned. -/
def loadAndCacheImage (reg : Registry) (c : Cache) :
    Option String → Nat → Except LoadError LoadResult
  | none, _ => .error (.undefinedImageId "loadAndCacheImage")
  | some imageId, options =>
    match c.getImageLoadObject imageId with
    | some imageLoadObject => .ok ⟨imageLoadObject.promise, [], [], [], c⟩
    | none =>
      match loadedVolumeHit c imageId with
      | some info =>
          let imageLoadObject :=
            info.volume.convertToCornerstoneImage imageId info.imageIdIndex
          .ok ⟨imageLoadObject.promise, [], [], [(imageId, imageLoadObject)],
               c.putImageLoadObject imageId imageLoadObject⟩
      | none =>
          (loadImageFromImageLoader reg imageId options).map
            (fun d =>
              ⟨d.loadObject.promise, d.events, d.calls,
               [(imageId, d.loadObject)],
               c.putImageLoadObject imageId d.loadObject⟩)

/-- `registerImageLoader(scheme, imageLoader)`: unconditional assignment
`imageLoaders[scheme] = imageLoader`. -/
def registerImageLoader (reg : Registry) (scheme : String) (loader : Loader) :
    Registry :=
  ⟨fun s => if s = scheme then some loader else reg.imageLoaders s,
   reg.unknownImageLoader⟩

/-- `registerUnknownImageLoader(imageLoader)`: installs the fallback and
returns the previous one. -/
def registerUnknownImageLoader (reg : Registry) (loader : Loader) :
    Registry × Option Loader :=
  (⟨reg.imageLoaders, some loader⟩, reg.unknownImageLoader)

/-- `unregisterAllImageLoaders()`: deletes every key of `imageLoaders` and
sets `unknownImageLoader` to undefined. -/
def unregisterAllImageLoaders (_reg : Registry) : Registry :=
  ⟨fun _ => none, none⟩

/-- A sequence of `registerImageLoader` calls applied in order. -/
def applyRegistrations (reg : Registry) :
    List (String × Loader) → Registry
  | [] => reg
  | p :: rest => applyRegistrations (registerImageLoader reg p.1 p.2) rest

/-! ### Concrete fixtures used by counterexamples and witnesses -/

/-- A concrete settled LoadObject. -/
def demoObj : ImageLoadObject := ⟨1, .fulfilled 5⟩

/-- A concrete fallback loader (id 10). -/
def demoFallback : Loader := ⟨10, fun _ _ => demoObj⟩

/-- Registry with no scheme loaders, only the fallback installed. -/
def regFallbackOnly : Registry := ⟨fun _ => none, some demoFallback⟩

/-- A concrete scheme loader (id 20) whose promise fulfills with image 7. -/
def demoLoader : Loader := ⟨20, fun _ _ => ⟨2, .fulfilled 7⟩⟩

/-- Registry mapping only the scheme "wadouri" to `demoLoader`. -/
def regWadouri : Registry :=
  ⟨fun s => if s = "wadouri" then some demoLoader else none, none⟩

/-- Registry with no scheme loaders and no fallback. -/
def emptyRegistry : Registry := ⟨fun _ => none, none⟩

/-- A concrete loader (id 30) to be registered under the empty scheme. -/
def emptySchemeLoader : Loader := ⟨30, fun _ _ => ⟨3, .fulfilled 9⟩⟩

/-- Cache with no image LoadObjects and no volumes. -/
def emptyCache : Cache := ⟨fun _ => none, fun _ => none⟩

/-- Cache holding `demoObj` under "wadouri:a.dcm". -/
def demoCache : Cache :=
  ⟨fun s => if s = "wadouri:a.dcm" then some demoObj else none, fun _ => none⟩

/-- The dispatch result of loading "wadouri:a.dcm" through `regWadouri`. -/
def wadouriDispatch : DispatchResult :=
  ⟨⟨2, .fulfilled 7⟩, [.imageLoaded 7], [⟨20, "wadouri:a.dcm", some 0⟩]⟩

/-- `emptyCache` after `loadAndCacheImage` stored the LoadObject produced by
`demoLoader` for "wadouri:a.dcm". -/
def cachedAfterDemo : Cache :=
  emptyCache.putImageLoadObject "wadouri:a.dcm" ⟨2, .fulfilled 7⟩

/-- The full result of `loadAndCacheImage regWadouri emptyCache
(some "wadouri:a.dcm") 0`. -/
def rDemo : LoadResult :=
  ⟨Outcome.fulfilled 7, [Event.imageLoaded 7], [⟨20, "wadouri:a.dcm", some 0⟩],
   [("wadouri:a.dcm", ⟨2, Outcome.fulfilled 7⟩)], cachedAfterDemo⟩

/-! ### Helper lemmas -/

/-- A character list without a colon has no first-colon index. -/
theorem firstColonIdx_eq_none (l : List Char) (h : ':' ∉ l) :
    firstColonIdx l = none := by
  induction l with
  | nil => rfl
  | cons a t ih =>
      rw [firstColonIdx, if_neg, ih (fun hm => h (List.mem_cons_of_mem _ hm)),
        Option.map_none']
      intro hEq
      exact h (hEq ▸ List.mem_cons_self a t)

/-- An identifier without a colon parses to the empty scheme, exactly as the
JavaScript `substring(0, -1)` does. -/
theorem parseScheme_eq_empty_of_no_colon (imageId : String)
    (h : ':' ∉ imageId.toList) : parseScheme imageId = "" := by
  rw [parseScheme, firstColonIdx_eq_none _ h]

/-- `registerImageLoader` leaves the fallback slot unchanged. -/
theorem registerImageLoader_unknown (reg : Registry) (scheme : String)
    (loader : Loader) :
    (registerImageLoader reg scheme loader).unknownImageLoader
      = reg.unknownImageLoader := rfl

/-- A run of registrations that never uses the empty scheme leaves the
empty-scheme table entry empty. -/
theorem applyRegistrations_lookup_empty (regs : List (String × Loader))
    (reg : Registry) (h0 : reg.imageLoaders "" = none)
    (hne : ∀ p ∈ regs, p.1 ≠ "") :
    (applyRegistrations reg regs).imageLoaders "" = none := by
  induction regs generalizing reg with
  | nil => exact h0
  | cons p rest ih =>
      refine ih _ ?_ (fun q hq => hne q (List.mem_cons_of_mem _ hq))
      show (if "" = p.1 then some p.2 else reg.imageLoaders "") = none
      rw [if_neg (fun hEq => hne p (List.mem_cons_self _ _) hEq.symm), h0]

/-- `applyRegistrations` never touches the fallback slot. -/
theorem applyRegistrations_unknown (regs : List (String × Loader))
    (reg : Registry) :
    (applyRegistrations reg regs).unknownImageLoader
      = reg.unknownImageLoader := by
  induction regs generalizing reg with
  | nil => rfl
  | cons p rest ih => exact ih _

/-- The only synchronous error of the dispatch routine is the no-loader
error. -/
theorem loadImageFromImageLoader_error_eq (reg : Registry) (imageId : String)
    (options : Nat) (e : LoadError)
    (h : loadImageFromImageLoader reg imageId options = .error e) :
    e = .noLoader := by
  simp only [loadImageFromImageLoader] at h
  cases hL : reg.imageLoaders (parseScheme imageId) with
  | some L => rw [hL] at h; exact Except.noConfusion h
  | none =>
      rw [hL] at h
      cases hu : reg.unknownImageLoader with
      | some u => rw [hu] at h; exact Except.noConfusion h
      | none => rw [hu] at h; exact (Except.error.inj h).symm

/-- With a present (`some`) imageId, `loadImage` never raises the
undefined-imageId programmer error. -/
theorem loadImage_some_ne_undefined (reg : Registry) (c : Cache)
    (imageId : String) (options : Nat) (s : String) :
    loadImage reg c (some imageId) options ≠ .error (.undefinedImageId s) := by
  simp only [loadImage]
  cases hg : c.getImageLoadObject imageId with
  | some obj => simp
  | none =>
      simp only [hg]
      cases hv : loadedVolumeHit c imageId with
      | some info => simp
      | none =>
          simp only [hv]
          cases hd : loadImageFromImageLoader reg imageId options with
          | error e =>
              have he := loadImageFromImageLoader_error_eq reg imageId
                options e hd
              subst he
              simp [hd, Except.map]
          | ok d => simp [hd, Except.map]

/-- With a present (`some`) imageId, `loadAndCacheImage` never raises the
undefined-imageId programmer error. -/
theorem loadAndCacheImage_some_ne_undefined (reg : Registry) (c : Cache)
    (imageId : String) (options : Nat) (s : String) :
    loadAndCacheImage reg c (some imageId) options
      ≠ .error (.undefinedImageId s) := by
  simp only [loadAndCacheImage]
  cases hg : c.getImageLoadObject imageId with
  | some obj => simp
  | none =>
      simp only [hg]
      cases hv : loadedVolumeHit c imageId with
      | some info => simp
      | none =>
          simp only [hv]
          cases hd : loadImageFromImageLoader reg imageId options with
          | error e =>
              have he := loadImageFromImageLoader_error_eq reg imageId
                options e hd
              subst he
              simp [hd, Except.map]
          | ok d => simp [hd, Except.map]

/-! ### Claim theorems -/

/-- C1 (amended): when dispatch resolves a scheme-registered loader, exactly
one lifecycle event is emitted and it matches the promise's outcome and
identifier (IMAGE_LOADED on fulfillment, IMAGE_LOAD_FAILED with the imageId
and error on rejection); when dispatch falls back to the unknown loader, no
event at all is emitted, because the fallback's LoadObject is returned before
the event handlers are attached. -/
theorem c1_dispatch_event_emission (reg : Registry) (imageId : String)
    (options : Nat) (d : DispatchResult)
    (h : loadImageFromImageLoader reg imageId options = .ok d) :
    (∀ L, reg.imageLoaders (parseScheme imageId) = some L →
        d.events = [eventForOutcome imageId d.loadObject.promise])
    ∧ (reg.imageLoaders (parseScheme imageId) = none → d.events = []) := by
  simp only [loadImageFromImageLoader] at h
  cases hL : reg.imageLoaders (parseScheme imageId) with
  | some L =>
      rw [hL] at h
      cases Except.ok.inj h
      exact ⟨fun _ _ => rfl, fun hN => Option.noConfusion hN⟩
  | none =>
      rw [hL] at h
      cases hu : reg.unknownImageLoader with
      | some u =>
          rw [hu] at h
          cases Except.ok.inj h
          exact ⟨fun L hL2 => Option.noConfusion hL2, fun _ => rfl⟩
      | none =>
          rw [hu] at h
          exact Except.noConfusion h

/-- C1 counterexample: a load dispatched through the Scheme Registry path and
resolved by the fallback unknown loader succeeds yet emits zero lifecycle
events, refuting "exactly one event per dispatched load, never zero" for the
fallback case. -/
theorem c1_fallback_emits_no_event :
    (loadImageFromImageLoader regFallbackOnly "foo:bar" 0).map
        (fun d => d.events.length) = .ok 0
    ∧ ¬ (loadImageFromImageLoader regFallbackOnly "foo:bar" 0).map
        (fun d => d.events.length) = .ok 1 := by
  constructor
  · rfl
  · intro hEq
    rw [(rfl : (loadImageFromImageLoader regFallbackOnly "foo:bar" 0).map
        (fun d => d.events.length) = .ok 0)] at hEq
    exact absurd (Except.ok.inj hEq) (by decide)

/-- C1 witness: dispatching "wadouri:a.dcm" through the registry holding
`demoLoader` yields exactly the matching IMAGE_LOADED event. -/
theorem c1_dispatch_event_emission_witness :
    wadouriDispatch.events
      = [eventForOutcome "wadouri:a.dcm" wadouriDispatch.loadObject.promise] :=
  (c1_dispatch_event_emission regWadouri "wadouri:a.dcm" 0 wadouriDispatch
    rfl).1 demoLoader rfl

/-- C2: both `loadImage` and `loadAndCacheImage` resolve in the same three
steps: (1) a cached LoadObject's promise is returned unchanged with no loader
invocation; (2) else a loaded containing volume is converted via
`convertToCornerstoneImage(imageId, imageIdIndex)` with the registry never
consulted (no loader calls); (3) else the load is dispatched through the
Scheme Registry. -/
theorem c2_resolution_order (reg : Registry) (c : Cache) (imageId : String)
    (options : Nat) :
    (∀ obj, c.getImageLoadObject imageId = some obj →
        loadImage reg c (some imageId) options
          = .ok ⟨obj.promise, [], [], [], c⟩
        ∧ loadAndCacheImage reg c (some imageId) options
          = .ok ⟨obj.promise, [], [], [], c⟩)
    ∧ (∀ info, c.getImageLoadObject imageId = none →
        c.getVolumeContainingImageId imageId = some info →
        info.volume.loaded = true →
        loadImage reg c (some imageId) options
          = .ok ⟨(info.volume.convertToCornerstoneImage imageId
                    info.imageIdIndex).promise, [], [], [], c⟩
        ∧ loadAndCacheImage reg c (some imageId) options
          = .ok ⟨(info.volume.convertToCornerstoneImage imageId
                    info.imageIdIndex).promise, [], [],
                 [(imageId, info.volume.convertToCornerstoneImage imageId
                    info.imageIdIndex)],
                 c.putImageLoadObject imageId
                   (info.volume.convertToCornerstoneImage imageId
                     info.imageIdIndex)⟩)
    ∧ (c.getImageLoadObject imageId = none →
        loadedVolumeHit c imageId = none →
        loadImage reg c (some imageId) options
          = (loadImageFromImageLoader reg imageId options).map
              (fun d => ⟨d.loadObject.promise, d.events, d.calls, [], c⟩)
        ∧ loadAndCacheImage reg c (some imageId) options
          = (loadImageFromImageLoader reg imageId options).map
              (fun d => ⟨d.loadObject.promise, d.events, d.calls,
                         [(imageId, d.loadObject)],
                         c.putImageLoadObject imageId d.loadObject⟩)) := by
  refine ⟨fun obj hg => ?_, fun info hg hv hl => ?_, fun hg hv => ?_⟩
  · constructor <;> simp [loadImage, loadAndCacheImage, hg]
  · have hhit : loadedVolumeHit c imageId = some info := by
      simp [loadedVolumeHit, hv, hl]
    constructor <;> simp [loadImage, loadAndCacheImage, hg, hhit]
  · constructor <;> simp [loadImage, loadAndCacheImage, hg, hv]

/-- C2 witness: with `demoObj` cached for "wadouri:a.dcm", both operations
return the cached promise with no dispatch and no cache change. -/
theorem c2_resolution_order_witness :
    loadImage regWadouri demoCache (some "wadouri:a.dcm") 0
        = .ok ⟨demoObj.promise, [], [], [], demoCache⟩
    ∧ loadAndCacheImage regWadouri demoCache (some "wadouri:a.dcm") 0
        = .ok ⟨demoObj.promise, [], [], [], demoCache⟩ :=
  (c2_resolution_order regWadouri demoCache "wadouri:a.dcm" 0).1 demoObj rfl

/-- C3: when `loadAndCacheImage` misses the image cache (step 2 or 3), the
resulting LoadObject is stored under the identifier in the returned cache
state, the returned promise is that object's promise, and a subsequent call
of either operation against that cache is a step-1 hit: same promise, no
loader calls, no events, no further stores. -/
theorem c3_cache_store_then_hit (reg : Registry) (c : Cache)
    (imageId : String) (options options2 : Nat) (r : LoadResult)
    (hmiss : c.getImageLoadObject imageId = none)
    (h : loadAndCacheImage reg c (some imageId) options = .ok r) :
    ∃ obj, r.cache.getImageLoadObject imageId = some obj
      ∧ r.promise = obj.promise
      ∧ r.puts = [(imageId, obj)]
      ∧ loadImage reg r.cache (some imageId) options2
          = .ok ⟨obj.promise, [], [], [], r.cache⟩
      ∧ loadAndCacheImage reg r.cache (some imageId) options2
          = .ok ⟨obj.promise, [], [], [], r.cache⟩ := by
  simp only [loadAndCacheImage, hmiss] at h
  cases hv : loadedVolumeHit c imageId with
  | some info =>
      simp only [hv] at h
      cases Except.ok.inj h
      refine ⟨info.volume.convertToCornerstoneImage imageId info.imageIdIndex,
        ?_, rfl, rfl, ?_, ?_⟩ <;>
        simp [loadImage, loadAndCacheImage, Cache.getImageLoadObject,
          Cache.putImageLoadObject]
  | none =>
      simp only [hv] at h
      cases hd : loadImageFromImageLoader reg imageId options with
      | error e => rw [hd] at h; exact Except.noConfusion h
      | ok d =>
          rw [hd] at h
          simp only [Except.map] at h
          cases Except.ok.inj h
          refine ⟨d.loadObject, ?_, rfl, rfl, ?_, ?_⟩ <;>
            simp [loadImage, loadAndCacheImage, Cache.getImageLoadObject,
              Cache.putImageLoadObject]

/-- C3 witness: after `loadAndCacheImage` dispatched and stored the load of
"wadouri:a.dcm", a later `loadImage` against the resulting cache returns the
same promise as a pure cache hit. -/
theorem c3_cache_store_then_hit_witness :
    loadImage regWadouri rDemo.cache (some "wadouri:a.dcm") 1
      = .ok ⟨rDemo.promise, [], [], [], rDemo.cache⟩ := by
  obtain ⟨obj, _, hprom, _, hload, _⟩ :=
    c3_cache_store_then_hit regWadouri emptyCache "wadouri:a.dcm" 0 1 rDemo
      rfl rfl
  rw [hprom]
  exact hload

/-- C4: when dispatch is reached and the scheme has no registered loader,
the call fails synchronously with the no-loader error if no fallback is
installed, for both operations; with a fallback installed, dispatch returns
the fallback's LoadObject and both operations return its promise without
throwing. -/
theorem c4_no_loader_sync_error (reg : Registry) (c : Cache)
    (imageId : String) (options : Nat)
    (hmiss : c.getImageLoadObject imageId = none)
    (hvol : loadedVolumeHit c imageId = none)
    (hsch : reg.imageLoaders (parseScheme imageId) = none) :
    (reg.unknownImageLoader = none →
        loadImage reg c (some imageId) options = .error .noLoader
        ∧ loadAndCacheImage reg c (some imageId) options = .error .noLoader)
    ∧ (∀ u, reg.unknownImageLoader = some u →
        loadImageFromImageLoader reg imageId options
          = .ok ⟨u.run imageId none, [], [⟨u.id, imageId, none⟩]⟩
        ∧ loadImage reg c (some imageId) options
          = .ok ⟨(u.run imageId none).promise, [], [⟨u.id, imageId, none⟩],
                 [], c⟩
        ∧ loadAndCacheImage reg c (some imageId) options
          = .ok ⟨(u.run imageId none).promise, [], [⟨u.id, imageId, none⟩],
                 [(imageId, u.run imageId none)],
                 c.putImageLoadObject imageId (u.run imageId none)⟩) := by
  constructor
  · intro hu
    constructor <;>
      simp [loadImage, loadAndCacheImage, hmiss, hvol,
        loadImageFromImageLoader, hsch, hu, Except.map]
  · intro u hu
    refine ⟨?_, ?_, ?_⟩ <;>
      simp [loadImage, loadAndCacheImage, hmiss, hvol,
        loadImageFromImageLoader, hsch, hu, Except.map]

/-- C4 witness: with nothing registered and nothing cached, both operations
throw the no-loader error synchronously for "foo:bar". -/
theorem c4_no_loader_sync_error_witness :
    loadImage emptyRegistry emptyCache (some "foo:bar") 0 = .error .noLoader
    ∧ loadAndCacheImage emptyRegistry emptyCache (some "foo:bar") 0
        = .error .noLoader :=
  (c4_no_loader_sync_error emptyRegistry emptyCache "foo:bar" 0 rfl rfl
    rfl).1 rfl

/-- C5 (amended): an identifier with no colon parses to the empty scheme,
and for every sequence of `registerImageLoader` calls in which no call uses
the empty-string scheme, dispatching a colon-less identifier never matches a
scheme-registered loader: it uses the fallback if present, or throws the
no-loader error. (A loader registered under the empty scheme, however, does
match such identifiers.) -/
theorem c5_no_colon_empty_scheme (imageId : String) (reg : Registry)
    (regs : List (String × Loader)) (options : Nat)
    (hnc : ':' ∉ imageId.toList)
    (h0 : reg.imageLoaders "" = none)
    (hne : ∀ p ∈ regs, p.1 ≠ "") :
    parseScheme imageId = ""
    ∧ (applyRegistrations reg regs).imageLoaders (parseScheme imageId) = none
    ∧ ((applyRegistrations reg regs).unknownImageLoader = none →
        loadImageFromImageLoader (applyRegistrations reg regs) imageId options
          = .error .noLoader)
    ∧ (∀ u, (applyRegistrations reg regs).unknownImageLoader = some u →
        loadImageFromImageLoader (applyRegistrations reg regs) imageId options
          = .ok ⟨u.run imageId none, [], [⟨u.id, imageId, none⟩]⟩) := by
  have hps := parseScheme_eq_empty_of_no_colon imageId hnc
  have hlk := applyRegistrations_lookup_empty regs reg h0 hne
  have hlk2 : (applyRegistrations reg regs).imageLoaders (parseScheme imageId)
      = none := by rw [hps]; exact hlk
  refine ⟨hps, hlk2, ?_, ?_⟩
  · intro hu
    simp [loadImageFromImageLoader, hlk2, hu]
  · intro u hu
    simp [loadImageFromImageLoader, hlk2, hu]

/-- C5 counterexample: `registerImageLoader` accepts the empty-string scheme,
and a colon-less identifier (whose parsed scheme is the empty string) then
matches and invokes that scheme-registered loader, refuting "never matches a
registered loader" as stated. -/
theorem c5_empty_scheme_registration_matches :
    parseScheme "noColon" = ""
    ∧ (loadImageFromImageLoader
          (registerImageLoader emptyRegistry "" emptySchemeLoader)
          "noColon" 0).map (fun d => d.calls)
        = .ok [⟨30, "noColon", some 0⟩] :=
  ⟨rfl, rfl⟩

/-- C5 witness: "noColon" parses to the empty scheme and misses a registry
built by registering only the nonempty scheme "wadouri". -/
theorem c5_no_colon_empty_scheme_witness :
    parseScheme "noColon" = ""
    ∧ (applyRegistrations emptyRegistry
        [("wadouri", demoLoader)]).imageLoaders (parseScheme "noColon")
        = none := by
  have h := c5_no_colon_empty_scheme "noColon" emptyRegistry
    [("wadouri", demoLoader)] 0 (by decide) rfl (by
      intro p hp
      rw [List.mem_singleton] at hp
      subst hp
      decide)
  exact ⟨h.1, h.2.1⟩

/-- C6 (amended): a scheme-matched loader is invoked exactly once with both
arguments (identifier, options) as supplied by the caller; the fallback
unknown loader is invoked exactly once but with the identifier alone, its
options argument left undefined regardless of what the caller supplied. -/
theorem c6_loader_invocation (reg : Registry) (imageId : String)
    (options : Nat) (d : DispatchResult)
    (h : loadImageFromImageLoader reg imageId options = .ok d) :
    (∀ L, reg.imageLoaders (parseScheme imageId) = some L →
        d.calls = [⟨L.id, imageId, some options⟩])
    ∧ (∀ u, reg.imageLoaders (parseScheme imageId) = none →
        reg.unknownImageLoader = some u →
        d.calls = [⟨u.id, imageId, none⟩]) := by
  simp only [loadImageFromImageLoader] at h
  cases hL : reg.imageLoaders (parseScheme imageId) with
  | some L =>
      rw [hL] at h
      cases Except.ok.inj h
      refine ⟨fun L2 hL2 => ?_, fun u hN _ => Option.noConfusion hN⟩
      cases Option.some.inj hL2
      rfl
  | none =>
      rw [hL] at h
      cases hu : reg.unknownImageLoader with
      | some u =>
          rw [hu] at h
          cases Except.ok.inj h
          refine ⟨fun L hL2 => Option.noConfusion hL2, fun u2 _ hu2 => ?_⟩
          cases Option.some.inj hu2
          rfl
      | none =>
          rw [hu] at h
          exact Except.noConfusion h

/-- C6 counterexample: the fallback loader for "foo:bar" is invoked with its
options argument undefined even though the caller supplied options 7,
refuting "invoked with both arguments as supplied by the caller" for the
fallback case. -/
theorem c6_fallback_drops_options :
    (loadImageFromImageLoader regFallbackOnly "foo:bar" 7).map
        (fun d => d.calls) = .ok [⟨10, "foo:bar", none⟩]
    ∧ ¬ (loadImageFromImageLoader regFallbackOnly "foo:bar" 7).map
        (fun d => d.calls) = .ok [⟨10, "foo:bar", some 7⟩] := by
  constructor
  · rfl
  · intro hEq
    rw [(rfl : (loadImageFromImageLoader regFallbackOnly "foo:bar" 7).map
        (fun d => d.calls) = .ok [⟨10, "foo:bar", none⟩])] at hEq
    injection hEq with h1
    injection h1 with h2 h3
    injection h2 with h4 h5 h6
    exact Option.noConfusion h6

/-- C6 witness: the scheme-matched `demoLoader` is invoked exactly once with
both the identifier and the caller's options. -/
theorem c6_loader_invocation_witness :
    wadouriDispatch.calls = [⟨demoLoader.id, "wadouri:a.dcm", some 0⟩] :=
  (c6_loader_invocation regWadouri "wadouri:a.dcm" 0 wadouriDispatch rfl).1
    demoLoader rfl

/-- C7: `loadImage` never stores anything in the caching façade: whenever it
returns a result, the cache state is exactly the one passed in and no
`putImageLoadObject` call was made. -/
theorem c7_loadImage_never_stores (reg : Registry) (c : Cache)
    (imageId? : Option String) (options : Nat) (r : LoadResult)
    (h : loadImage reg c imageId? options = .ok r) :
    r.cache = c ∧ r.puts = [] := by
  cases imageId? with
  | none => exact Except.noConfusion h
  | some imageId =>
      simp only [loadImage] at h
      cases hg : c.getImageLoadObject imageId with
      | some obj =>
          rw [hg] at h
          cases Except.ok.inj h
          exact ⟨rfl, rfl⟩
      | none =>
          rw [hg] at h
          cases hv : loadedVolumeHit c imageId with
          | some info =>
              simp only [hv] at h
              cases Except.ok.inj h
              exact ⟨rfl, rfl⟩
          | none =>
              simp only [hv] at h
              cases hd : loadImageFromImageLoader reg imageId options with
              | error e => rw [hd] at h; exact Except.noConfusion h
              | ok d =>
                  rw [hd] at h
                  cases Except.ok.inj h
                  exact ⟨rfl, rfl⟩

/-- C7 witness: a `loadImage` cache hit on "wadouri:a.dcm" leaves the cache
exactly as before and performs no store. -/
theorem c7_loadImage_never_stores_witness :
    (⟨demoObj.promise, [], [], [], demoCache⟩ : LoadResult).cache = demoCache
    ∧ (⟨demoObj.promise, [], [], [], demoCache⟩ : LoadResult).puts = [] :=
  c7_loadImage_never_stores regWadouri demoCache (some "wadouri:a.dcm") 0
    ⟨demoObj.promise, [], [], [], demoCache⟩ rfl

/-- C8: `unregisterAllImageLoaders` clears every scheme mapping and the
fallback slot, is idempotent, and afterwards any load that reaches dispatch
(no cache hit, no loaded-volume hit) throws the no-loader error for both
operations. -/
theorem c8_unregisterAll_clears (reg : Registry) (c : Cache)
    (imageId : String) (options : Nat)
    (hmiss : c.getImageLoadObject imageId = none)
    (hvol : loadedVolumeHit c imageId = none) :
    (∀ s, (unregisterAllImageLoaders reg).imageLoaders s = none)
    ∧ (unregisterAllImageLoaders reg).unknownImageLoader = none
    ∧ unregisterAllImageLoaders (unregisterAllImageLoaders reg)
        = unregisterAllImageLoaders reg
    ∧ loadImage (unregisterAllImageLoaders reg) c (some imageId) options
        = .error .noLoader
    ∧ loadAndCacheImage (unregisterAllImageLoaders reg) c (some imageId)
        options = .error .noLoader := by
  refine ⟨fun _ => rfl, rfl, rfl, ?_, ?_⟩ <;>
    simp [loadImage, loadAndCacheImage, hmiss, hvol, loadImageFromImageLoader,
      unregisterAllImageLoaders, Except.map]

/-- C8 witness: after clearing the "wadouri" registry, its entries and
fallback are gone, clearing again changes nothing, and loads of
"wadouri:a.dcm" against an empty cache throw the no-loader error. -/
theorem c8_unregisterAll_clears_witness :
    (unregisterAllImageLoaders regWadouri).imageLoaders "wadouri" = none
    ∧ (unregisterAllImageLoaders regWadouri).unknownImageLoader = none
    ∧ unregisterAllImageLoaders (unregisterAllImageLoaders regWadouri)
        = unregisterAllImageLoaders regWadouri
    ∧ loadImage (unregisterAllImageLoaders regWadouri) emptyCache
        (some "wadouri:a.dcm") 0 = .error .noLoader
    ∧ loadAndCacheImage (unregisterAllImageLoaders regWadouri) emptyCache
        (some "wadouri:a.dcm") 0 = .error .noLoader := by
  have h := c8_unregisterAll_clears regWadouri emptyCache "wadouri:a.dcm" 0
    rfl rfl
  exact ⟨h.1 "wadouri", h.2.1, h.2.2.1, h.2.2.2.1, h.2.2.2.2⟩

/-- C9: `registerImageLoader` unconditionally overwrites any prior loader for
the same scheme without any error: after registering f1 then f2 under scheme
S, resolution for S yields f2 (last write wins). -/
theorem c9_register_last_write_wins (reg : Registry) (S : String)
    (f1 f2 : Loader) :
    (registerImageLoader (registerImageLoader reg S f1) S f2).imageLoaders S
      = some f2 := by
  simp [registerImageLoader]

/-- C10: the only identifier precondition checked synchronously is that the
imageId is not undefined: with the empty string, neither operation raises the
undefined-imageId programmer error; instead resolution proceeds with the
empty scheme, so absent a cache or volume hit it uses the fallback loader or
throws the no-loader error. -/
theorem c10_empty_identifier_allowed (reg : Registry) (c : Cache)
    (options : Nat) :
    parseScheme "" = ""
    ∧ (∀ s, loadImage reg c (some "") options
        ≠ .error (.undefinedImageId s))
    ∧ (∀ s, loadAndCacheImage reg c (some "") options
        ≠ .error (.undefinedImageId s))
    ∧ (c.getImageLoadObject "" = none → loadedVolumeHit c "" = none →
        reg.imageLoaders "" = none →
        ((reg.unknownImageLoader = none →
            loadImage reg c (some "") options = .error .noLoader
            ∧ loadAndCacheImage reg c (some "") options = .error .noLoader)
         ∧ (∀ u, reg.unknownImageLoader = some u →
            loadImage reg c (some "") options
              = .ok ⟨(u.run "" none).promise, [], [⟨u.id, "", none⟩], [], c⟩
            ∧ loadAndCacheImage reg c (some "") options
              = .ok ⟨(u.run "" none).promise, [], [⟨u.id, "", none⟩],
                     [("", u.run "" none)],
                     c.putImageLoadObject "" (u.run "" none)⟩))) := by
  have hps : parseScheme "" = "" := rfl
  refine ⟨rfl, fun s => loadImage_some_ne_undefined reg c "" options s,
    fun s => loadAndCacheImage_some_ne_undefined reg c "" options s,
    fun hg hv hsch => ⟨fun hu => ?_, fun u hu => ?_⟩⟩ <;>
    constructor <;>
      simp [loadImage, loadAndCacheImage, hg, hv,
        loadImageFromImageLoader, hps, hsch, hu, Except.map]

/-- C10 witness: `loadImage` on the empty-string identifier with nothing
registered and nothing cached does not raise the programmer error and throws
the no-loader error instead. -/
theorem c10_empty_identifier_allowed_witness :
    parseScheme "" = ""
    ∧ loadImage emptyRegistry emptyCache (some "") 0
        ≠ .error (.undefinedImageId "loadImage")
    ∧ loadImage emptyRegistry emptyCache (some "") 0 = .error .noLoader := by
  have h := c10_empty_identifier_allowed emptyRegistry emptyCache 0
  exact ⟨h.1, h.2.1 "loadImage", ((h.2.2.2 rfl rfl rfl).1 rfl).1⟩

end ImageLoaderModel
